import Mathlib

/-!
Verification of the winspec-server protocol core against its sources.

The embedding follows the Python sources closely:
* `src/winspec/exceptions.py` — error taxonomy (`WinspecError`, numeric codes);
* `src/winspec/winspec_dummy.py` — the dummy instrument driver;
* `src/winspec/winspec_com.py` — the COM instrument driver (external COM
  calls are parameters of the model);
* `src/winspec/server.py` — per-connection serve loop and command dispatch;
* `src/winspec/client.py` — client public calls and send-and-wait loop.

JSON objects are association lists (Python dicts preserve insertion order
and have unique keys); machine exceptions that escape a handler are made
explicit as `Option PyExn` results.
-/

namespace WinspecModel

/-- JSON values as exchanged on the wire (the protocol only ever carries
null, booleans, numbers, strings and nested arrays). -/
inductive JVal where
  | jnull
  | jbool (b : Bool)
  | jint (n : Int)
  | jstr (s : String)
  | jarr (xs : List JVal)
deriving Repr

/-- Python `str()` / `repr()` of a value, as used by `'{}'.format(...)`. -/
def pyRepr : JVal → String
  | .jnull => "None"
  | .jbool true => "True"
  | .jbool false => "False"
  | .jint n => toString n
  | .jstr s => "'" ++ s ++ "'"
  | .jarr xs => "[" ++ String.intercalate ", " (pyReprList xs) ++ "]"
where
  pyReprList : List JVal → List String
    | [] => []
    | x :: xs => pyRepr x :: pyReprList xs

/-- Python `str()` of a value (`str` on a string is the bare string). -/
def pyStr : JVal → String
  | .jstr s => s
  | v => pyRepr v

/-- Is this value the string `s`?  Mirrors Python `value == 'lit'`. -/
def JVal.isStr : JVal → String → Bool
  | .jstr t, s => t = s
  | _, _ => false

/-- A JSON object: ordered association list with unique keys. -/
abbrev Dict := List (String × JVal)

/-- `d[k]` lookup (first occurrence). -/
def dlookup : Dict → String → Option JVal
  | [], _ => none
  | (k', v) :: rest, k => if k' = k then some v else dlookup rest k

/-- `d[k] = v`: replace the value at `k`, or append a fresh binding. -/
def dictInsert : Dict → String → JVal → Dict
  | [], k, v => [(k, v)]
  | (k', v') :: rest, k, v =>
      if k' = k then (k, v) :: rest else (k', v') :: dictInsert rest k v

/-- `{**d, **e}`: right-biased dict merge. -/
def dictMerge (d : Dict) : Dict → Dict
  | [] => d
  | (k, v) :: rest => dictMerge (dictInsert d k v) rest

/-- `d.pop(k)`: the dict with key `k` removed. -/
def dictErase : Dict → String → Dict
  | [], _ => []
  | (k', v) :: rest, k => if k' = k then dictErase rest k else (k', v) :: dictErase rest k

/-! ## Error taxonomy (`src/winspec/exceptions.py`) -/

def UnknownError : Int := -1
def SpectrometerBusy : Int := 1
def OutOfRange : Int := 2
def HardwareError : Int := 3
def ParameterError : Int := 4
def JSONDecodeError : Int := 101
def UnrecognisedVariable : Int := 102
def UnrecognisedCommand : Int := 103
def AuthenticationError : Int := 104

/-- `WinspecError(errno, msg)`. -/
structure WinspecError where
  errno : Int
  msg : String
deriving Repr, DecidableEq

/-- Does a driver result signal `SpectrometerBusy`? -/
def exBusy {α : Type} : Except WinspecError α → Bool
  | .error e => e.errno == SpectrometerBusy
  | .ok _ => false

/-! ## Dummy instrument driver (`src/winspec/winspec_dummy.py`)

State of one `WinspecCOM` dummy object: the non-blocking `threading.Lock`
and the three stored values.  Each hardware-touching method tries the lock
without blocking, raises `SpectrometerBusy` if it is already held, and
releases it in a `finally` on every exit path. -/

structure DummyState where
  locked : Bool
  wavelength : JVal
  det_temp : JVal
  exposure : JVal
deriving Repr

/-- `WinspecCOM.__init__` of the dummy driver. -/
def initState : DummyState :=
  { locked := false, wavelength := .jint 500, det_temp := .jint (-100), exposure := .jint 10 }

/-- Dummy `set_wavelength`: try-acquire the lock (busy if held), store the
value, release in `finally`. -/
def dummy_set_wavelength (w : JVal) (st : DummyState) : Except WinspecError Unit × DummyState :=
  if st.locked then
    (.error ⟨SpectrometerBusy, "Unable to update wavelength due to concurrent operation"⟩, st)
  else
    (.ok (), { st with locked := false, wavelength := w })

/-- Dummy `get_wavelength`: plain read, no lock. -/
def dummy_get_wavelength (st : DummyState) : Except WinspecError JVal × DummyState :=
  (.ok st.wavelength, st)

/-- Dummy `set_exposure_time` (the busy message is the same copy-pasted
string as `set_wavelength` in the source). -/
def dummy_set_exposure_time (t : JVal) (st : DummyState) : Except WinspecError Unit × DummyState :=
  if st.locked then
    (.error ⟨SpectrometerBusy, "Unable to update wavelength due to concurrent operation"⟩, st)
  else
    (.ok (), { st with locked := false, exposure := t })

/-- Dummy `get_exposure_time`. -/
def dummy_get_exposure_time (st : DummyState) : Except WinspecError JVal × DummyState :=
  (.ok st.exposure, st)

/-- Dummy `get_detector_temp`. -/
def dummy_get_detector_temp (st : DummyState) : Except WinspecError JVal × DummyState :=
  (.ok st.det_temp, st)

/-- The fixed spectrum `[[0, 1, 2], [3, 4, 5]]` the dummy driver returns. -/
def dummySpectrum : JVal :=
  .jarr [.jarr [.jint 0, .jint 1, .jint 2], .jarr [.jint 3, .jint 4, .jint 5]]

/-- Dummy `acquire_spectrum`: try-acquire the lock (busy if held), return
the fixed spectrum, release in `finally`. -/
def dummy_acquire_spectrum (st : DummyState) : Except WinspecError JVal × DummyState :=
  if st.locked then
    (.error ⟨SpectrometerBusy, "Unable to start acquisition due to concurrent operation"⟩, st)
  else
    (.ok dummySpectrum, { st with locked := false })

/-! ## Variable registry (`WinspecServer.__init__`, `src/winspec/server.py`) -/

/-- One registry entry: optional getter and optional setter bound to the
instrument driver. -/
structure VarEntry where
  getter : Option (DummyState → Except WinspecError JVal × DummyState)
  setter : Option (JVal → DummyState → Except WinspecError Unit × DummyState)

/-- `self.vars`: name → entry. -/
abbrev Registry := List (String × VarEntry)

/-- Registry lookup `self.vars[key]` (returns `none` where Python raises
`KeyError`). -/
def dlookupVar : Registry → String → Option VarEntry
  | [], _ => none
  | (k', e) :: rest, k => if k' = k then some e else dlookupVar rest k

/-- The server's registry, with the (dummy) driver methods bound exactly as
in `WinspecServer.__init__`. -/
def serverVars : Registry :=
  [("wavelength", ⟨some dummy_get_wavelength, some dummy_set_wavelength⟩),
   ("exposure_time", ⟨some dummy_get_exposure_time, some dummy_set_exposure_time⟩),
   ("spectrum", ⟨some dummy_acquire_spectrum, none⟩),
   ("detector_temp", ⟨some dummy_get_detector_temp, none⟩)]

/-! ## Wire frames -/

/-- `{'error': errno, 'errormsg': msg}` as sent by `_handle_error`. -/
def errResp (code : Int) (msg : String) : Dict :=
  [("error", .jint code), ("errormsg", .jstr msg)]

/-- `{'complete': True, **return_vals}` as sent at the end of
`_handle_command`. -/
def completeResp (vals : Dict) : Dict :=
  dictMerge [("complete", .jbool true)] vals

/-! ## Command dispatch (`WinspecServer._handle_command`) -/

/-- The decoded `command['cmd']` verb once known to be `'set'` or `'get'`. -/
inductive Verb where
  | vset
  | vget
deriving Repr, DecidableEq

/-- A Python exception escaping a handler uncaught. -/
inductive PyExn where
  | keyError (k : String)
deriving Repr, DecidableEq

/-- The per-key loop of `_handle_command` (lines 110–148 of `server.py`):
iterate over the command's keys; skip `'cmd'`; look the key up in the
registry (`KeyError` → one `UnrecognisedVariable` error frame); for `set`
a missing setter is `ParameterError` "read-only", otherwise the setter
runs; for `get` a missing getter is `ParameterError` "write-only",
otherwise the getter runs and its value is stored in `return_vals`; any
`WinspecError` from the driver becomes one error frame and processing
continues with the remaining keys.  Returns the error frames sent (in
order), the final `return_vals`, and the final driver state. -/
def processKeys (reg : Registry) (verb : Verb) :
    List (String × JVal) → Dict → DummyState → List Dict × Dict × DummyState
  | [], vals, st => ([], vals, st)
  | (key, v) :: rest, vals, st =>
    if key = "cmd" then processKeys reg verb rest vals st
    else
      match dlookupVar reg key with
      | none =>
        let (es, vs, st') := processKeys reg verb rest vals st
        (errResp UnrecognisedVariable ("Unrecognised variable '" ++ key ++ "'") :: es, vs, st')
      | some ent =>
        match verb with
        | .vset =>
          match ent.setter with
          | none =>
            let (es, vs, st') := processKeys reg verb rest vals st
            (errResp ParameterError (key ++ " is read-only") :: es, vs, st')
          | some f =>
            match f v st with
            | (.ok _, st1) => processKeys reg verb rest vals st1
            | (.error e, st1) =>
              let (es, vs, st') := processKeys reg verb rest vals st1
              (errResp e.errno e.msg :: es, vs, st')
        | .vget =>
          match ent.getter with
          | none =>
            let (es, vs, st') := processKeys reg verb rest vals st
            (errResp ParameterError (key ++ " is write-only") :: es, vs, st')
          | some g =>
            match g st with
            | (.ok v', st1) => processKeys reg verb rest (dictInsert vals key v') st1
            | (.error e, st1) =>
              let (es, vs, st') := processKeys reg verb rest vals st1
              (errResp e.errno e.msg :: es, vs, st')

/-- `WinspecServer._handle_command`: dispatch one decoded command.
Returns the frames sent over the websocket (error frames followed by the
terminal completion frame — the `finally` block always sends it), the
final driver state, and the exception escaping the handler, if any
(`command['cmd']` on a dict without a `'cmd'` key raises `KeyError` after
the `finally` has sent `{'complete': True}`). -/
def handleCommand (reg : Registry) (cmd : Dict) (st : DummyState) :
    List Dict × DummyState × Option PyExn :=
  match dlookup cmd "cmd" with
  | none => ([completeResp []], st, some (.keyError "cmd"))
  | some v =>
    if v.isStr "set" then
      let (es, vals, st') := processKeys reg .vset cmd [] st
      (es ++ [completeResp vals], st', none)
    else if v.isStr "get" then
      let (es, vals, st') := processKeys reg .vget cmd [] st
      (es ++ [completeResp vals], st', none)
    else
      ([errResp UnrecognisedCommand ("Unrecognised command " ++ pyStr v), completeResp []],
       st, none)

/-- One inbound websocket frame after `json.loads`: either a decode
failure with its detail string, or a decoded command dict. -/
abbrev InMsg := Except String Dict

/-- `WinspecServer._serve`'s receive loop: for each inbound frame, a
decode failure sends one `JSONDecodeError` error frame and the loop
continues; a decoded command is dispatched; an exception escaping
`_handle_command` is not caught (only `json.JSONDecodeError` is) and
terminates the loop.  Returns the frames sent, the final driver state,
and whether the loop was terminated by an escaped exception. -/
def serve (reg : Registry) : List InMsg → DummyState → List Dict × DummyState × Bool
  | [], st => ([], st, false)
  | .error detail :: rest, st =>
    let (rs, st', t) := serve reg rest st
    (errResp JSONDecodeError detail :: rs, st', t)
  | .ok cmd :: rest, st =>
    match handleCommand reg cmd st with
    | (rs, st', none) =>
      let (rs2, st'', t) := serve reg rest st'
      (rs ++ rs2, st'', t)
    | (rs, st', some _) => (rs, st', true)

/-- The key/value pairs resolved by getters while a `get` command's keys
are processed: skip `'cmd'`, skip unknown keys, skip keys without a
getter, record each successful getter's value, skip failed getters.
This follows the spec's description of the completion frame's contents
and is proved equal to the `return_vals` the dispatch loop builds. -/
def gatherGets (reg : Registry) : List (String × JVal) → Dict → DummyState → Dict × DummyState
  | [], vals, st => (vals, st)
  | (key, _) :: rest, vals, st =>
    if key = "cmd" then gatherGets reg rest vals st
    else
      match dlookupVar reg key with
      | none => gatherGets reg rest vals st
      | some ent =>
        match ent.getter with
        | none => gatherGets reg rest vals st
        | some g =>
          match g st with
          | (.ok v', st1) => gatherGets reg rest (dictInsert vals key v') st1
          | (.error _, st1) => gatherGets reg rest vals st1

/-- The values a command's completion frame should carry: getter-resolved
pairs for a `get`, nothing for a `set` or an unrecognised verb. -/
def resolvedGets (reg : Registry) (cmd : Dict) (st : DummyState) : Dict :=
  match dlookup cmd "cmd" with
  | some v => if v.isStr "get" then (gatherGets reg cmd [] st).1 else []
  | none => []

/-! ## COM instrument driver (`src/winspec/winspec_com.py`)

The COM driver shares the `WinspecCOM` interface, but its bodies call into
the external WinSpec COM server.  The model keeps the driver's own control
flow (try-acquire lock, retval checks, `finally` release) exact and takes
the values returned by the external COM calls as parameters. -/

/-- Return values of the external COM calls made by `set_wavelength`. -/
structure ComSetWlEnv where
  setParamRet : Int
  moveRet : Int
deriving Repr

/-- COM `set_wavelength`: try-acquire the lock (busy if held);
`SetParam` retval equal to `WRONG_WAVELENGTH` raises `OutOfRange`, any
other non-zero retval raises `HardwareError`; a non-zero `Move` retval
raises `HardwareError`; the lock is released in `finally` on every exit.
`wrongWavelength` stands for the external `WinSpecLib.WRONG_WAVELENGTH`
constant. -/
def com_set_wavelength (wrongWavelength : Int) (env : ComSetWlEnv) (locked : Bool) :
    Except WinspecError Unit × Bool :=
  if locked then
    (.error ⟨SpectrometerBusy, "Unable to update wavelength due to concurrent operation"⟩,
     locked)
  else
    let res : Except WinspecError Unit :=
      if env.setParamRet = wrongWavelength then
        .error ⟨OutOfRange, "Wavelength out of range"⟩
      else if env.setParamRet ≠ 0 then
        .error ⟨HardwareError, "Spectrometer error " ++ toString env.setParamRet⟩
      else if env.moveRet ≠ 0 then
        .error ⟨HardwareError, "Spectrometer error " ++ toString env.moveRet⟩
      else .ok ()
    (res, false)

/-- COM `set_exposure_time`: try-acquire the lock; non-zero `SetParam`
retval raises `HardwareError`; lock released in `finally`. -/
def com_set_exposure_time (setParamRet : Int) (locked : Bool) :
    Except WinspecError Unit × Bool :=
  if locked then
    (.error ⟨SpectrometerBusy, "Unable to update wavelength due to concurrent operation"⟩,
     locked)
  else
    let res : Except WinspecError Unit :=
      if setParamRet ≠ 0 then
        .error ⟨HardwareError, "Spectrometer error " ++ toString setParamRet⟩
      else .ok ()
    (res, false)

/-- Return values of the external COM calls made by `acquire_spectrum`:
the `Start` retval, the successive `(running, status)` polls of
`EXP_RUNNING`, and the frame/calibration data the spectrum is built from. -/
structure ComAcqEnv where
  startRet : Bool
  polls : List (Bool × Int)
  wavelengths : List Int
  intensities : List Int
deriving Repr

/-- The `while True` polling loop of COM `acquire_spectrum`: a non-zero
status raises `HardwareError`, `running = False` breaks out; `none` means
the given polls are exhausted with the experiment still running (the
Python loop would still be polling — no exit yet). -/
def pollLoop : List (Bool × Int) → Option (Except WinspecError Unit)
  | [] => none
  | (running, status) :: rest =>
    if status ≠ 0 then some (.error ⟨HardwareError, "Spectrometer error " ++ toString status⟩)
    else if running then pollLoop rest
    else some (.ok ())

/-- COM `acquire_spectrum`: try-acquire the lock (busy if held); a `Start`
retval other than `True` raises `HardwareError`; then the polling loop
runs; on break the wavelength/intensity pair is returned; the lock is
released in `finally` on every exit path.  A `none` result means the call
has not exited (still polling), in which case the lock is still held. -/
def com_acquire_spectrum (env : ComAcqEnv) (locked : Bool) :
    Option (Except WinspecError JVal) × Bool :=
  if locked then
    (some (.error ⟨SpectrometerBusy, "Unable to start acquisition due to concurrent operation"⟩),
     locked)
  else
    if env.startRet = false then
      (some (.error ⟨HardwareError, "Spectrometer error False"⟩), false)
    else
      match pollLoop env.polls with
      | none => (none, true)
      | some (.error e) => (some (.error e), false)
      | some (.ok _) =>
        (some (.ok (.jarr [.jarr (env.wavelengths.map .jint),
                           .jarr (env.intensities.map .jint)])), false)

/-- Busy check on the optional result of `com_acquire_spectrum` (`none`,
no exit yet, is not a busy failure). -/
def exBusyO {α : Type} : Option (Except WinspecError α) → Bool
  | none => false
  | some r => exBusy r

/-! ## Client (`src/winspec/client.py`) -/

/-- Outcome of `_send_and_wait`'s receive loop. -/
inductive SWResult where
  | raised (code : JVal) (msg : JVal)
  | completed (d : Dict)
  | timeout
  | badFrame
deriving Repr

/-- The receive loop of `_send_and_wait`: dequeue replies in order; a
frame with an `'error'` key raises `WinspecError(code, msg)` (a frame
with `'error'` but no `'errormsg'` would die with `KeyError` —
`badFrame`); otherwise a frame with a `'complete'` key ends the wait and
the dict minus the `'complete'` marker is returned; any other frame is
skipped; running out of replies is the `asyncio.wait_for` timeout. -/
def waitLoop : List Dict → SWResult
  | [] => .timeout
  | r :: rest =>
    match dlookup r "error" with
    | some e =>
      match dlookup r "errormsg" with
      | some m => .raised e m
      | none => .badFrame
    | none =>
      match dlookup r "complete" with
      | some _ => .completed (dictErase r "complete")
      | none => waitLoop rest

/-- `_clear_recv_queue`: drain every message out of the receive queue. -/
def clearRecvQueue (_queue : List Dict) : List Dict := []

/-- `_send_and_wait cmd`: flush the queue (whatever was sitting in it),
send the encoded command, then run the receive loop over the replies that
arrive afterwards.  Returns the frame sent and the loop's outcome. -/
def sendAndWait (cmd : Dict) (queue arrivals : List Dict) : Dict × SWResult :=
  let flushed := clearRecvQueue queue
  (cmd, waitLoop (flushed ++ arrivals))

/-- Result of a public client call. -/
inductive PubResult where
  | done
  | value (v : JVal)
  | winspecErr (code : JVal) (msg : JVal)
  | connectionError (msg : String)
  | timeoutErr
  | pyError
deriving Repr

/-- Observable outcome of one public client call: the frames sent on the
wire, the state of the supervisor's stop signal afterwards, and the
result returned or raised to the caller. -/
structure CallOut where
  sent : List Dict
  stopSet : Bool
  result : PubResult
deriving Repr

/-- `set_parameters`'s view of the loop outcome (`f.result()` is
discarded; errors re-raise). -/
def pubOfSet : SWResult → PubResult
  | .completed _ => .done
  | .raised c m => .winspecErr c m
  | .timeout => .timeoutErr
  | .badFrame => .pyError

/-- `get_parameter`'s view of the loop outcome: `f.result()[param]`
(a completion without the parameter would die with `KeyError`). -/
def pubOfGet (p : String) : SWResult → PubResult
  | .completed d =>
    match dlookup d p with
    | some v => .value v
    | none => .pyError
  | .raised c m => .winspecErr c m
  | .timeout => .timeoutErr
  | .badFrame => .pyError

/-- `WinspecClient.set_parameters`: `_check_connected` first — when the
connected signal is not set it sets the stop signal and raises
`ConnectionError('Server not connected')` before anything is sent;
otherwise `{'cmd': 'set', **params}` goes through `_send_and_wait`. -/
def set_parameters (connected stop : Bool) (params : Dict) (queue arrivals : List Dict) :
    CallOut :=
  if connected then
    let cmd := dictMerge [("cmd", .jstr "set")] params
    let (sentFrame, r) := sendAndWait cmd queue arrivals
    ⟨[sentFrame], stop, pubOfSet r⟩
  else
    ⟨[], true, .connectionError "Server not connected"⟩

/-- `WinspecClient.get_parameter`: `_check_connected` first; the command
is `{'cmd': 'get'}` with `cmd[param] = None`; returns the completion's
value for `param`. -/
def get_parameter (connected stop : Bool) (p : String) (queue arrivals : List Dict) :
    CallOut :=
  if connected then
    let cmd := dictInsert [("cmd", .jstr "get")] p .jnull
    let (sentFrame, r) := sendAndWait cmd queue arrivals
    ⟨[sentFrame], stop, pubOfGet p r⟩
  else
    ⟨[], true, .connectionError "Server not connected"⟩

/-- `WinspecClient.acquire`: literally `self.get_parameter('spectrum')`. -/
def acquire (connected stop : Bool) (queue arrivals : List Dict) : CallOut :=
  get_parameter connected stop "spectrum" queue arrivals

/-! ## Client connection lifecycle (`connect` / `disconnect`) -/

/-- A Python exception raised to the caller of `connect`. -/
inductive PyErr where
  | connectionError (msg : String)
deriving Repr, DecidableEq

/-- The client-session fields `connect`/`disconnect` touch: the background
thread reference, the stop event and the connected event. -/
structure ClientConn where
  thread : Option Unit
  stop : Bool
  connected : Bool
deriving Repr, DecidableEq

/-- `WinspecClient.connect`: raises `'Already connected'` whenever
`self.thread` is not `None`; otherwise clears the stop event, stores the
new thread reference and waits.  `threadConnects` says whether the
background thread reaches the connected state or dies first; in the
latter case `connect` raises `'Unable to connect to server'` — without
clearing `self.thread` (only `disconnect` does that). -/
def connect (c : ClientConn) (threadConnects : Bool) : ClientConn × Option PyErr :=
  if c.thread.isSome then
    (c, some (.connectionError "Already connected"))
  else
    let c1 := { c with stop := false, thread := some () }
    if threadConnects then
      ({ c1 with connected := true }, none)
    else
      (c1, some (.connectionError "Unable to connect to server"))

/-- `WinspecClient.disconnect`: set the stop event, join the thread (whose
`finally` clears the connected event), clear the thread reference. -/
def disconnect (c : ClientConn) : ClientConn :=
  { c with stop := true, thread := none, connected := false }

/-- A registry configuration where `wavelength` has only a setter bound
(the write-only scenario described in the spec). -/
def wavelengthWriteOnly : Registry :=
  [("wavelength", ⟨none, some dummy_set_wavelength⟩)]

/-! ## Helper lemmas -/

theorem processKeys_vset_vals (reg : Registry) (l : List (String × JVal)) (vals : Dict)
    (st : DummyState) : (processKeys reg .vset l vals st).2.1 = vals := by
  induction l generalizing vals st with
  | nil => rfl
  | cons kv rest ih =>
    obtain ⟨key, v⟩ := kv
    by_cases hk : key = "cmd"
    · simp only [processKeys, if_pos hk]; exact ih vals st
    · cases hlv : dlookupVar reg key with
      | none => simp only [processKeys, if_neg hk, hlv]; exact ih vals st
      | some ent =>
        cases hs : ent.setter with
        | none => simp only [processKeys, if_neg hk, hlv, hs]; exact ih vals st
        | some f =>
          cases hf : f v st with
          | mk res st1 =>
            cases res with
            | ok u => simp only [processKeys, if_neg hk, hlv, hs, hf]; exact ih vals st1
            | error e => simp only [processKeys, if_neg hk, hlv, hs, hf]; exact ih vals st1

theorem processKeys_vget_vals (reg : Registry) (l : List (String × JVal)) (vals : Dict)
    (st : DummyState) :
    (processKeys reg .vget l vals st).2.1 = (gatherGets reg l vals st).1 := by
  induction l generalizing vals st with
  | nil => rfl
  | cons kv rest ih =>
    obtain ⟨key, v⟩ := kv
    by_cases hk : key = "cmd"
    · simp only [processKeys, gatherGets, if_pos hk]; exact ih vals st
    · cases hlv : dlookupVar reg key with
      | none =>
        simp only [processKeys, gatherGets, if_neg hk, hlv]; exact ih vals st
      | some ent =>
        cases hg : ent.getter with
        | none =>
          simp only [processKeys, gatherGets, if_neg hk, hlv, hg]; exact ih vals st
        | some g =>
          cases hgr : g st with
          | mk res st1 =>
            cases res with
            | ok v' =>
              simp only [processKeys, gatherGets, if_neg hk, hlv, hg, hgr]
              exact ih (dictInsert vals key v') st1
            | error e =>
              simp only [processKeys, gatherGets, if_neg hk, hlv, hg, hgr]
              exact ih vals st1

theorem processKeys_errs_form (reg : Registry) (verb : Verb) (l : List (String × JVal))
    (vals : Dict) (st : DummyState) :
    ∀ r ∈ (processKeys reg verb l vals st).1, ∃ c m, r = errResp c m := by
  induction l generalizing vals st with
  | nil => intro r hr; simp [processKeys] at hr
  | cons kv rest ih =>
    obtain ⟨key, v⟩ := kv
    intro r hr
    by_cases hk : key = "cmd"
    · simp only [processKeys, if_pos hk] at hr; exact ih vals st r hr
    · cases hlv : dlookupVar reg key with
      | none =>
        simp only [processKeys, if_neg hk, hlv] at hr
        rcases List.mem_cons.mp hr with h | h
        · exact ⟨_, _, h⟩
        · exact ih vals st r h
      | some ent =>
        cases verb with
        | vset =>
          cases hs : ent.setter with
          | none =>
            simp only [processKeys, if_neg hk, hlv, hs] at hr
            rcases List.mem_cons.mp hr with h | h
            · exact ⟨_, _, h⟩
            · exact ih vals st r h
          | some f =>
            cases hf : f v st with
            | mk res st1 =>
              cases res with
              | ok u =>
                simp only [processKeys, if_neg hk, hlv, hs, hf] at hr
                exact ih vals st1 r hr
              | error e =>
                simp only [processKeys, if_neg hk, hlv, hs, hf] at hr
                rcases List.mem_cons.mp hr with h | h
                · exact ⟨_, _, h⟩
                · exact ih vals st1 r h
        | vget =>
          cases hg : ent.getter with
          | none =>
            simp only [processKeys, if_neg hk, hlv, hg] at hr
            rcases List.mem_cons.mp hr with h | h
            · exact ⟨_, _, h⟩
            · exact ih vals st r h
          | some g =>
            cases hgr : g st with
            | mk res st1 =>
              cases res with
              | ok v2 =>
                simp only [processKeys, if_neg hk, hlv, hg, hgr] at hr
                exact ih (dictInsert vals key v2) st1 r hr
              | error e =>
                simp only [processKeys, if_neg hk, hlv, hg, hgr] at hr
                rcases List.mem_cons.mp hr with h | h
                · exact ⟨_, _, h⟩
                · exact ih vals st1 r h

theorem processKeys_append (reg : Registry) (verb : Verb) (xs ys : List (String × JVal))
    (vals : Dict) (st : DummyState) :
    processKeys reg verb (xs ++ ys) vals st =
      ((processKeys reg verb xs vals st).1
         ++ (processKeys reg verb ys (processKeys reg verb xs vals st).2.1
               (processKeys reg verb xs vals st).2.2).1,
       (processKeys reg verb ys (processKeys reg verb xs vals st).2.1
          (processKeys reg verb xs vals st).2.2).2) := by
  induction xs generalizing vals st with
  | nil => simp [processKeys]
  | cons kv rest ih =>
    obtain ⟨key, v⟩ := kv
    by_cases hk : key = "cmd"
    · simp only [List.cons_append, processKeys, if_pos hk]; exact ih vals st
    · cases hlv : dlookupVar reg key with
      | none =>
        simp [List.cons_append, processKeys, if_neg hk, hlv, ih vals st]
      | some ent =>
        cases verb with
        | vset =>
          cases hs : ent.setter with
          | none => simp [List.cons_append, processKeys, if_neg hk, hlv, hs, ih vals st]
          | some f =>
            cases hf : f v st with
            | mk res st1 =>
              cases res with
              | ok u =>
                simp [List.cons_append, processKeys, if_neg hk, hlv, hs, hf, ih vals st1]
              | error e =>
                simp [List.cons_append, processKeys, if_neg hk, hlv, hs, hf, ih vals st1]
        | vget =>
          cases hg : ent.getter with
          | none => simp [List.cons_append, processKeys, if_neg hk, hlv, hg, ih vals st]
          | some g =>
            cases hgr : g st with
            | mk res st1 =>
              cases res with
              | ok v2 =>
                simp [List.cons_append, processKeys, if_neg hk, hlv, hg, hgr,
                  ih (dictInsert vals key v2) st1]
              | error e =>
                simp [List.cons_append, processKeys, if_neg hk, hlv, hg, hgr, ih vals st1]

theorem errResp_no_complete (c : Int) (m : String) :
    dlookup (errResp c m) "complete" = none := rfl

theorem errResp_has_error (c : Int) (m : String) :
    dlookup (errResp c m) "error" = some (.jint c) := rfl

theorem pollLoop_errno (polls : List (Bool × Int)) (e : WinspecError)
    (h : pollLoop polls = some (.error e)) : e.errno = HardwareError := by
  induction polls with
  | nil => simp [pollLoop] at h
  | cons p rest ih =>
    obtain ⟨running, status⟩ := p
    simp only [pollLoop] at h
    by_cases hs : status ≠ 0
    · rw [if_pos hs] at h
      obtain rfl : WinspecError.mk HardwareError ("Spectrometer error " ++ toString status) = e :=
        by simpa using h
      rfl
    · rw [if_neg hs] at h
      by_cases hrun : running
      · rw [if_pos hrun] at h; exact ih h
      · rw [if_neg hrun] at h; simp at h

theorem isStr_set_not_get (v : JVal) (h : v.isStr "set" = true) : v.isStr "get" = false := by
  cases v with
  | jstr s =>
    have hs : s = "set" := by simpa [JVal.isStr] using h
    subst hs
    decide
  | jnull => simp [JVal.isStr] at h
  | jbool b => simp [JVal.isStr] at h
  | jint n => simp [JVal.isStr] at h
  | jarr xs => simp [JVal.isStr] at h

/-! ## Claims -/

/-- C5: an inbound frame that fails to decode as JSON makes the server
send exactly one error frame, with code `JSONDecodeError` (101) and the
decode detail as message and with no `complete` key, and the serve loop
continues with the subsequent frames (the connection is not closed by a
decode failure). -/
theorem c5_decode_failure_recoverable (reg : Registry) (detail : String)
    (rest : List InMsg) (st : DummyState) :
    serve reg (.error detail :: rest) st =
      (errResp JSONDecodeError detail :: (serve reg rest st).1, (serve reg rest st).2) ∧
    dlookup (errResp JSONDecodeError detail) "error" = some (.jint JSONDecodeError) ∧
    dlookup (errResp JSONDecodeError detail) "errormsg" = some (.jstr detail) ∧
    dlookup (errResp JSONDecodeError detail) "complete" = none :=
  ⟨rfl, rfl, rfl, rfl⟩

/-- C8: a public client call (`set_parameters`, `get_parameter`,
`acquire`) made while the connected signal is not set fails with
`ConnectionError('Server not connected')`, sends nothing on the wire, and
sets the supervisor's stop signal. -/
theorem c8_not_connected_fatal (stop : Bool) (params : Dict) (p : String)
    (queue arrivals : List Dict) :
    set_parameters false stop params queue arrivals
      = ⟨[], true, .connectionError "Server not connected"⟩ ∧
    get_parameter false stop p queue arrivals
      = ⟨[], true, .connectionError "Server not connected"⟩ ∧
    acquire false stop queue arrivals
      = ⟨[], true, .connectionError "Server not connected"⟩ :=
  ⟨rfl, rfl, rfl⟩

/-- C10: a failed `connect` (background thread dies before connecting)
raises `Unable to connect to server` but leaves the thread reference set,
so a subsequent `connect` raises `Already connected` whatever the server
does; `connect` never clears the thread reference (it is always set
afterwards) and only `disconnect` clears it. -/
theorem c10_failed_connect_not_retryable (c : ClientConn) (h : c.thread = none) :
    (connect c false).2 = some (.connectionError "Unable to connect to server") ∧
    (connect c false).1.thread = some () ∧
    (∀ o : Bool, connect (connect c false).1 o
        = ((connect c false).1, some (.connectionError "Already connected"))) ∧
    (∀ (d : ClientConn) (o : Bool), ((connect d o).1).thread.isSome = true) ∧
    (∀ d : ClientConn, (disconnect d).thread = none) := by
  refine ⟨?_, ?_, ?_, ?_, fun d => rfl⟩
  · simp [connect, h]
  · simp [connect, h]
  · intro o
    simp [connect, h]
  · intro d o
    cases hd : d.thread with
    | none => simp [connect, hd]; cases o <;> simp
    | some u => simp [connect, hd]

/-- C10 witness: the property at a fresh client session. -/
theorem c10_witness :
    (ClientConn.mk none false false).thread = none ∧
    ((connect ⟨none, false, false⟩ false).2
        = some (.connectionError "Unable to connect to server") ∧
     (connect ⟨none, false, false⟩ false).1.thread = some () ∧
     (∀ o : Bool, connect (connect ⟨none, false, false⟩ false).1 o
         = ((connect ⟨none, false, false⟩ false).1,
            some (.connectionError "Already connected"))) ∧
     (∀ (d : ClientConn) (o : Bool), ((connect d o).1).thread.isSome = true) ∧
     (∀ d : ClientConn, (disconnect d).thread = none)) :=
  ⟨rfl, c10_failed_connect_not_retryable ⟨none, false, false⟩ rfl⟩

/-- C9: a decoded command dict with no `cmd` key still gets exactly one
completion frame (sent by the `finally` block) and no error frame; the
`KeyError` escapes `_handle_command` uncaught, so the connection's serve
loop terminates with the remaining frames unprocessed — unlike a
present-but-unrecognised verb, which produces an `UnrecognisedCommand`
error frame plus a completion frame and leaves the loop running. -/
theorem c9_missing_cmd_key (reg : Registry) (cmd : Dict) (rest : List InMsg) (st : DummyState)
    (h : dlookup cmd "cmd" = none) :
    handleCommand reg cmd st = ([completeResp []], st, some (.keyError "cmd")) ∧
    serve reg (.ok cmd :: rest) st = ([completeResp []], st, true) ∧
    dlookup (completeResp []) "error" = none ∧
    (∀ w : String, w ≠ "set" → w ≠ "get" →
      serve reg (.ok [("cmd", .jstr w)] :: rest) st =
        (errResp UnrecognisedCommand ("Unrecognised command " ++ w) :: completeResp []
            :: (serve reg rest st).1, (serve reg rest st).2)) := by
  have h1 : handleCommand reg cmd st = ([completeResp []], st, some (.keyError "cmd")) := by
    unfold handleCommand
    rw [h]
  refine ⟨h1, ?_, rfl, ?_⟩
  · show (match handleCommand reg cmd st with
      | (rs, st', none) =>
        let r2 := serve reg rest st'
        (rs ++ r2.1, r2.2)
      | (rs, st', some _) => (rs, st', true)) = ([completeResp []], st, true)
    rw [h1]
  · intro w hset hget
    have h2 : handleCommand reg [("cmd", .jstr w)] st =
        ([errResp UnrecognisedCommand ("Unrecognised command " ++ w), completeResp []],
         st, none) := by
      have hd : dlookup [("cmd", JVal.jstr w)] "cmd" = some (.jstr w) := rfl
      have hs : JVal.isStr (.jstr w) "set" = false := by simp [JVal.isStr, hset]
      have hg : JVal.isStr (.jstr w) "get" = false := by simp [JVal.isStr, hget]
      simp only [handleCommand, hd, hs, hg, Bool.false_eq_true, if_false, pyStr]
    show (match handleCommand reg [("cmd", .jstr w)] st with
      | (rs, st', none) =>
        let r2 := serve reg rest st'
        (rs ++ r2.1, r2.2)
      | (rs, st', some _) => (rs, st', true)) = _
    rw [h2]
    rfl

/-- C9 witness: a command with only a variable key and no `cmd` key, and
the contrast with the unrecognised verb `acquire`. -/
theorem c9_witness :
    dlookup [("wavelength", JVal.jnull)] "cmd" = none ∧
    (serve serverVars [.ok [("wavelength", JVal.jnull)]] initState
        = ([completeResp []], initState, true) ∧
     serve serverVars [.ok [("cmd", JVal.jstr "acquire")]] initState
        = (errResp UnrecognisedCommand "Unrecognised command acquire" :: completeResp []
            :: (serve serverVars [] initState).1, (serve serverVars [] initState).2)) := by
  have h := c9_missing_cmd_key serverVars [("wavelength", JVal.jnull)] [] initState rfl
  exact ⟨rfl, h.2.1, h.2.2.2 "acquire" (by decide) (by decide)⟩

/-- C6: each hardware-touching driver operation (`set_wavelength`,
`set_exposure_time`, `acquire_spectrum`, in both the dummy and the COM
driver) raises `SpectrometerBusy` exactly when the exclusive lock is
already held at entry (the try-acquire is non-blocking), and on every
exit path — normal return or raised driver fault — the lock is released
before the operation returns: afterwards the lock is held exactly when
the call was refused busy (for the COM `acquire_spectrum`, while the poll
loop has not yet exited there is no exit path and the lock is still
held). -/
theorem c6_lock_discipline (ww : Int) (envW : ComSetWlEnv) (expRet : Int) (envA : ComAcqEnv)
    (w t : JVal) (st : DummyState) (locked : Bool) :
    (exBusy (dummy_set_wavelength w st).1 = st.locked ∧
      (dummy_set_wavelength w st).2.locked = exBusy (dummy_set_wavelength w st).1) ∧
    (exBusy (dummy_set_exposure_time t st).1 = st.locked ∧
      (dummy_set_exposure_time t st).2.locked = exBusy (dummy_set_exposure_time t st).1) ∧
    (exBusy (dummy_acquire_spectrum st).1 = st.locked ∧
      (dummy_acquire_spectrum st).2.locked = exBusy (dummy_acquire_spectrum st).1) ∧
    (exBusy (com_set_wavelength ww envW locked).1 = locked ∧
      (com_set_wavelength ww envW locked).2 = exBusy (com_set_wavelength ww envW locked).1) ∧
    (exBusy (com_set_exposure_time expRet locked).1 = locked ∧
      (com_set_exposure_time expRet locked).2
        = exBusy (com_set_exposure_time expRet locked).1) ∧
    (exBusyO (com_acquire_spectrum envA locked).1 = locked ∧
      (com_acquire_spectrum envA locked).2 =
        (match (com_acquire_spectrum envA locked).1 with
         | none => true
         | some r => exBusy r)) := by
  refine ⟨?_, ?_, ?_, ?_, ?_, ?_⟩
  · cases hl : st.locked <;>
      simp [dummy_set_wavelength, exBusy, hl, SpectrometerBusy]
  · cases hl : st.locked <;>
      simp [dummy_set_exposure_time, exBusy, hl, SpectrometerBusy]
  · cases hl : st.locked <;>
      simp [dummy_acquire_spectrum, exBusy, hl, SpectrometerBusy]
  · cases locked with
    | true => exact ⟨rfl, rfl⟩
    | false =>
      refine ⟨?_, ?_⟩ <;>
        · simp only [com_set_wavelength, Bool.false_eq_true, if_false]
          repeat first | rfl | split
  · cases locked with
    | true => exact ⟨rfl, rfl⟩
    | false =>
      refine ⟨?_, ?_⟩ <;>
        · simp only [com_set_exposure_time, Bool.false_eq_true, if_false]
          repeat first | rfl | split
  · cases locked with
    | true => exact ⟨rfl, rfl⟩
    | false =>
      by_cases hs : envA.startRet = false
      · refine ⟨?_, ?_⟩ <;>
          simp [com_acquire_spectrum, hs, exBusyO, exBusy, HardwareError, SpectrometerBusy]
      · cases hp : pollLoop envA.polls with
        | none =>
          refine ⟨?_, ?_⟩ <;> simp [com_acquire_spectrum, hs, hp, exBusyO]
        | some r =>
          cases r with
          | ok u =>
            refine ⟨?_, ?_⟩ <;> simp [com_acquire_spectrum, hs, hp, exBusyO, exBusy]
          | error e =>
            have he : e.errno = HardwareError := pollLoop_errno envA.polls e hp
            refine ⟨?_, ?_⟩ <;>
              simp [com_acquire_spectrum, hs, hp, exBusyO, exBusy, he, HardwareError,
                SpectrometerBusy]

/-- C1 counterexample: a decoded frame whose `cmd` field is `acquire` is
NOT processed as a get of `spectrum` — the server rejects it with an
`UnrecognisedCommand` (103) error frame and the terminal completion frame
carries no spectrum value. -/
theorem c1_counterexample :
    handleCommand serverVars [("cmd", .jstr "acquire")] initState =
      ([errResp UnrecognisedCommand "Unrecognised command acquire", completeResp []],
       initState, none) ∧
    errResp UnrecognisedCommand "Unrecognised command acquire"
      = [("error", .jint 103), ("errormsg", .jstr "Unrecognised command acquire")] ∧
    dlookup (completeResp []) "spectrum" = none :=
  ⟨rfl, rfl, rfl⟩

/-- C1 (amended): the wire protocol has no `acquire` verb — a
`cmd = 'acquire'` frame is rejected as an unrecognised command.  The
acquire operation exists client-side: `WinspecClient.acquire` is exactly
`get_parameter('spectrum')`, so it sends `{'cmd': 'get', 'spectrum':
null}`, and the server answers that command with a completion frame
carrying the spectrum (a wavelengths/intensities pair). -/
theorem c1_amended_acquire_is_get_of_spectrum :
    (∀ (connected stop : Bool) (queue arrivals : List Dict),
       acquire connected stop queue arrivals
         = get_parameter connected stop "spectrum" queue arrivals) ∧
    (∀ (stop : Bool) (queue arrivals : List Dict),
       (acquire true stop queue arrivals).sent
         = [[("cmd", JVal.jstr "get"), ("spectrum", JVal.jnull)]]) ∧
    handleCommand serverVars [("cmd", .jstr "get"), ("spectrum", .jnull)] initState
      = ([completeResp [("spectrum", dummySpectrum)]], initState, none) :=
  ⟨fun _ _ _ _ => rfl, fun _ _ _ => rfl, rfl⟩

/-- C3 counterexample: a `set` with the invalid key `foo` and the valid
key `wavelength` — the valid setter is applied (the stored wavelength
changes to 650) and the invalid key gets its own error frame, but the
valid key does NOT appear in the completion frame, which is the bare
`{'complete': true}`. -/
theorem c3_counterexample :
    handleCommand serverVars
        [("cmd", .jstr "set"), ("foo", .jnull), ("wavelength", .jint 650)] initState =
      ([errResp UnrecognisedVariable "Unrecognised variable 'foo'", completeResp []],
       { initState with wavelength := .jint 650 }, none) ∧
    dlookup (completeResp []) "wavelength" = none :=
  ⟨rfl, rfl⟩

/-- C3 (amended): in a `set` command each key is processed independently —
an invalid key (not a registry name) contributes exactly its own
`UnrecognisedVariable` error frame, the keys before and after it are
processed exactly as without it (every valid setter is still invoked),
and the completion frame of a `set` carries no key/value pairs
(successful setters contribute no value). -/
theorem c3_amended_keys_independent (reg : Registry) (l1 l2 : List (String × JVal))
    (b : String) (bv : JVal) (st : DummyState)
    (hb : b ≠ "cmd") (hinv : dlookupVar reg b = none) :
    handleCommand reg (("cmd", .jstr "set") :: (l1 ++ (b, bv) :: l2)) st =
      ((processKeys reg .vset l1 [] st).1
         ++ errResp UnrecognisedVariable ("Unrecognised variable '" ++ b ++ "'")
         :: (processKeys reg .vset l2 [] (processKeys reg .vset l1 [] st).2.2).1
         ++ [completeResp []],
       (processKeys reg .vset l2 [] (processKeys reg .vset l1 [] st).2.2).2.2, none) := by
  have hmid : ∀ (vs : Dict) (s1 : DummyState),
      processKeys reg .vset ((b, bv) :: l2) vs s1
        = (errResp UnrecognisedVariable ("Unrecognised variable '" ++ b ++ "'")
             :: (processKeys reg .vset l2 vs s1).1,
           (processKeys reg .vset l2 vs s1).2) := by
    intro vs s1
    simp [processKeys, hb, hinv]
  have h0 : processKeys reg .vset (("cmd", JVal.jstr "set") :: (l1 ++ (b, bv) :: l2)) [] st
      = processKeys reg .vset (l1 ++ (b, bv) :: l2) [] st := by
    simp [processKeys]
  have hH : handleCommand reg (("cmd", .jstr "set") :: (l1 ++ (b, bv) :: l2)) st
      = ((processKeys reg .vset (("cmd", JVal.jstr "set") :: (l1 ++ (b, bv) :: l2)) [] st).1
           ++ [completeResp (processKeys reg .vset
                 (("cmd", JVal.jstr "set") :: (l1 ++ (b, bv) :: l2)) [] st).2.1],
         (processKeys reg .vset (("cmd", JVal.jstr "set") :: (l1 ++ (b, bv) :: l2)) [] st).2.2,
         none) := rfl
  rw [hH, h0, processKeys_append, processKeys_vset_vals, hmid, processKeys_vset_vals]

/-- C3 witness: `set` of valid `wavelength`, invalid `foo`, valid
`exposure_time`. -/
theorem c3_amended_witness :
    handleCommand serverVars
        (("cmd", .jstr "set")
          :: ([("wavelength", JVal.jint 650)] ++ ("foo", JVal.jnull)
                :: [("exposure_time", JVal.jint 5)])) initState =
      ((processKeys serverVars .vset [("wavelength", JVal.jint 650)] [] initState).1
         ++ errResp UnrecognisedVariable "Unrecognised variable 'foo'"
         :: (processKeys serverVars .vset [("exposure_time", JVal.jint 5)] []
               (processKeys serverVars .vset [("wavelength", JVal.jint 650)] []
                  initState).2.2).1
         ++ [completeResp []],
       (processKeys serverVars .vset [("exposure_time", JVal.jint 5)] []
          (processKeys serverVars .vset [("wavelength", JVal.jint 650)] [] initState).2.2).2.2,
       none) :=
  c3_amended_keys_independent serverVars [("wavelength", JVal.jint 650)]
    [("exposure_time", JVal.jint 5)] "foo" JVal.jnull initState (by decide) rfl

/-- C2: every decoded command that has a `cmd` key produces exactly one
completion frame, sent last after zero or more error frames, with no
exception escaping; the completion frame carries exactly the key/value
pairs resolved by getters — nothing for a `set` (successful setters
contribute no value) and nothing for an unrecognised verb, which
contributes exactly one `UnrecognisedCommand` error frame. -/
theorem c2_single_completion (reg : Registry) (cmd : Dict) (st : DummyState)
    (h : (dlookup cmd "cmd").isSome = true) :
    ∃ errs st',
      handleCommand reg cmd st
        = (errs ++ [completeResp (resolvedGets reg cmd st)], st', none) ∧
      (∀ r ∈ errs, ∃ c m, r = errResp c m) ∧
      (∀ r ∈ errs, dlookup r "complete" = none) ∧
      (∀ v, dlookup cmd "cmd" = some v → v.isStr "set" = false → v.isStr "get" = false →
        resolvedGets reg cmd st = [] ∧
        errs = [errResp UnrecognisedCommand ("Unrecognised command " ++ pyStr v)]) := by
  cases hv : dlookup cmd "cmd" with
  | none => rw [hv] at h; simp at h
  | some v =>
    by_cases hset : v.isStr "set" = true
    · have hres : resolvedGets reg cmd st = [] := by
        simp [resolvedGets, hv, isStr_set_not_get v hset]
      refine ⟨(processKeys reg .vset cmd [] st).1, (processKeys reg .vset cmd [] st).2.2,
        ?_, ?_, ?_, ?_⟩
      · have hmain : handleCommand reg cmd st
            = ((processKeys reg .vset cmd [] st).1
                 ++ [completeResp (processKeys reg .vset cmd [] st).2.1],
               (processKeys reg .vset cmd [] st).2.2, none) := by
          simp only [handleCommand, hv, hset, if_true]
        rw [hmain, processKeys_vset_vals, hres]
      · exact processKeys_errs_form reg .vset cmd [] st
      · intro r hr
        obtain ⟨c, m, rfl⟩ := processKeys_errs_form reg .vset cmd [] st r hr
        exact errResp_no_complete c m
      · intro v2 hv2 hs2 hg2
        obtain rfl : v = v2 := Option.some.inj hv2
        rw [hset] at hs2
        cases hs2
    · by_cases hget : v.isStr "get" = true
      · have hres : resolvedGets reg cmd st = (gatherGets reg cmd [] st).1 := by
          simp [resolvedGets, hv, hget]
        refine ⟨(processKeys reg .vget cmd [] st).1, (processKeys reg .vget cmd [] st).2.2,
          ?_, ?_, ?_, ?_⟩
        · have hmain : handleCommand reg cmd st
              = ((processKeys reg .vget cmd [] st).1
                   ++ [completeResp (processKeys reg .vget cmd [] st).2.1],
                 (processKeys reg .vget cmd [] st).2.2, none) := by
            simp only [handleCommand, hv, hset, hget, if_true, Bool.false_eq_true, if_false]
          rw [hmain, processKeys_vget_vals, hres]
        · exact processKeys_errs_form reg .vget cmd [] st
        · intro r hr
          obtain ⟨c, m, rfl⟩ := processKeys_errs_form reg .vget cmd [] st r hr
          exact errResp_no_complete c m
        · intro v2 hv2 hs2 hg2
          obtain rfl : v = v2 := Option.some.inj hv2
          rw [hget] at hg2
          cases hg2
      · have hs : v.isStr "set" = false := by
          cases hb : v.isStr "set" with
          | true => exact absurd hb hset
          | false => rfl
        have hg : v.isStr "get" = false := by
          cases hb : v.isStr "get" with
          | true => exact absurd hb hget
          | false => rfl
        have hres : resolvedGets reg cmd st = [] := by
          simp [resolvedGets, hv, hg]
        have hmain : handleCommand reg cmd st
            = ([errResp UnrecognisedCommand ("Unrecognised command " ++ pyStr v),
                completeResp []], st, none) := by
          simp only [handleCommand, hv, hs, hg, Bool.false_eq_true, if_false]
        refine ⟨[errResp UnrecognisedCommand ("Unrecognised command " ++ pyStr v)], st,
          ?_, ?_, ?_, ?_⟩
        · rw [hmain, hres]; rfl
        · intro r hr
          rw [List.mem_singleton] at hr
          exact ⟨_, _, hr⟩
        · intro r hr
          rw [List.mem_singleton] at hr
          subst hr
          exact errResp_no_complete _ _
        · intro v2 hv2 hs2 hg2
          obtain rfl : v = v2 := Option.some.inj hv2
          exact ⟨hres, rfl⟩

/-- C2 witness: a `get` of `wavelength` against the server registry. -/
theorem c2_witness :
    (dlookup [("cmd", JVal.jstr "get"), ("wavelength", JVal.jnull)] "cmd").isSome = true ∧
    (∃ errs st',
      handleCommand serverVars [("cmd", .jstr "get"), ("wavelength", .jnull)] initState
        = (errs ++ [completeResp (resolvedGets serverVars
              [("cmd", .jstr "get"), ("wavelength", .jnull)] initState)], st', none) ∧
      (∀ r ∈ errs, ∃ c m, r = errResp c m) ∧
      (∀ r ∈ errs, dlookup r "complete" = none) ∧
      (∀ v, dlookup [("cmd", JVal.jstr "get"), ("wavelength", JVal.jnull)] "cmd" = some v →
        v.isStr "set" = false → v.isStr "get" = false →
        resolvedGets serverVars [("cmd", .jstr "get"), ("wavelength", .jnull)] initState = []
          ∧ errs = [errResp UnrecognisedCommand ("Unrecognised command " ++ pyStr v)])) :=
  ⟨rfl, c2_single_completion serverVars [("cmd", .jstr "get"), ("wavelength", .jnull)]
    initState rfl⟩

/-- C4: processing one key of a `set`/`get` command emits exactly one
matching error frame when the key fails to resolve — `UnrecognisedVariable`
(102) with the offending name in the message when the key is not a
registry name; `ParameterError` (4) with message "<name> is read-only"
for a `set` of a variable with no setter; `ParameterError` (4) with
message "<name> is write-only" for a `get` of a variable with no getter —
and processing continues with the remaining keys, the terminal completion
frame being appended after all of them by `_handle_command`. -/
theorem c4_per_key_error_frames (reg : Registry) (k : String) (kv : JVal)
    (rest : List (String × JVal)) (vals : Dict) (st : DummyState) (hk : k ≠ "cmd") :
    (dlookupVar reg k = none → ∀ verb,
       processKeys reg verb ((k, kv) :: rest) vals st =
         (errResp UnrecognisedVariable ("Unrecognised variable '" ++ k ++ "'")
            :: (processKeys reg verb rest vals st).1,
          (processKeys reg verb rest vals st).2)) ∧
    (∀ ent, dlookupVar reg k = some ent → ent.setter = none →
       processKeys reg .vset ((k, kv) :: rest) vals st =
         (errResp ParameterError (k ++ " is read-only")
            :: (processKeys reg .vset rest vals st).1,
          (processKeys reg .vset rest vals st).2)) ∧
    (∀ ent, dlookupVar reg k = some ent → ent.getter = none →
       processKeys reg .vget ((k, kv) :: rest) vals st =
         (errResp ParameterError (k ++ " is write-only")
            :: (processKeys reg .vget rest vals st).1,
          (processKeys reg .vget rest vals st).2)) := by
  refine ⟨?_, ?_, ?_⟩
  · intro h verb
    cases verb <;> simp [processKeys, hk, h]
  · intro ent h hs
    simp [processKeys, hk, h, hs]
  · intro ent h hg
    simp [processKeys, hk, h, hg]

/-- C4 witness: the unknown key `foo`, a `set` of the getter-only
`spectrum`, and the spec scenario of a `get` of a write-only
`wavelength`. -/
theorem c4_witness :
    processKeys serverVars .vget [("foo", JVal.jnull)] [] initState =
      (errResp UnrecognisedVariable "Unrecognised variable 'foo'"
         :: (processKeys serverVars .vget [] [] initState).1,
       (processKeys serverVars .vget [] [] initState).2) ∧
    processKeys serverVars .vset [("spectrum", JVal.jnull)] [] initState =
      (errResp ParameterError "spectrum is read-only"
         :: (processKeys serverVars .vset [] [] initState).1,
       (processKeys serverVars .vset [] [] initState).2) ∧
    processKeys wavelengthWriteOnly .vget [("wavelength", JVal.jnull)] [] initState =
      (errResp ParameterError "wavelength is write-only"
         :: (processKeys wavelengthWriteOnly .vget [] [] initState).1,
       (processKeys wavelengthWriteOnly .vget [] [] initState).2) :=
  ⟨(c4_per_key_error_frames serverVars "foo" JVal.jnull [] [] initState (by decide)).1
      rfl .vget,
   (c4_per_key_error_frames serverVars "spectrum" JVal.jnull [] [] initState (by decide)).2.1
      ⟨some dummy_acquire_spectrum, none⟩ rfl rfl,
   (c4_per_key_error_frames wavelengthWriteOnly "wavelength" JVal.jnull [] [] initState
      (by decide)).2.2 ⟨none, some dummy_set_wavelength⟩ rfl rfl⟩

/-- C7: every public client call first flushes the inbound queue (the
outcome is independent of whatever was sitting in it), then sends exactly
the encoded command, then loops dequeuing replies: with only
neither-error-nor-complete frames before it, the first frame carrying an
`error` key raises a `WinspecError` with that frame's code and message,
and a frame carrying a `complete` key (and no `error` key) ends the wait,
returning the frame with the `complete` marker removed. -/
theorem c7_send_and_wait_protocol (stop : Bool) (params : Dict) (p : String)
    (queue queue2 arrivals : List Dict) :
    (set_parameters true stop params queue arrivals
       = set_parameters true stop params queue2 arrivals ∧
     get_parameter true stop p queue arrivals = get_parameter true stop p queue2 arrivals ∧
     acquire true stop queue arrivals = acquire true stop queue2 arrivals) ∧
    ((set_parameters true stop params queue arrivals).sent
       = [dictMerge [("cmd", .jstr "set")] params] ∧
     (get_parameter true stop p queue arrivals).sent
       = [dictInsert [("cmd", .jstr "get")] p .jnull] ∧
     (∀ cmd : Dict, sendAndWait cmd queue arrivals = (cmd, waitLoop arrivals))) ∧
    (∀ (pre : List Dict) (r : Dict) (rest : List Dict),
       (∀ q ∈ pre, dlookup q "error" = none ∧ dlookup q "complete" = none) →
       (∀ e m, dlookup r "error" = some e → dlookup r "errormsg" = some m →
          waitLoop (pre ++ r :: rest) = .raised e m) ∧
       (dlookup r "error" = none → ∀ c, dlookup r "complete" = some c →
          waitLoop (pre ++ r :: rest) = .completed (dictErase r "complete"))) := by
  refine ⟨⟨rfl, rfl, rfl⟩, ⟨rfl, rfl, fun _ => rfl⟩, ?_⟩
  intro pre r rest hpre
  induction pre with
  | nil =>
    constructor
    · intro e m he hm
      simp only [List.nil_append, waitLoop, he, hm]
    · intro he c hc
      simp only [List.nil_append, waitLoop, he, hc]
  | cons q pre2 ih =>
    have hq := hpre q (List.mem_cons_self q pre2)
    have hrest : ∀ x ∈ pre2, dlookup x "error" = none ∧ dlookup x "complete" = none :=
      fun x hx => hpre x (List.mem_cons_of_mem q hx)
    obtain ⟨ih1, ih2⟩ := ih hrest
    constructor
    · intro e m he hm
      have : waitLoop ((q :: pre2) ++ r :: rest) = waitLoop (pre2 ++ r :: rest) := by
        simp only [List.cons_append, waitLoop, hq.1, hq.2, List.append_eq]
      rw [this]
      exact ih1 e m he hm
    · intro he c hc
      have : waitLoop ((q :: pre2) ++ r :: rest) = waitLoop (pre2 ++ r :: rest) := by
        simp only [List.cons_append, waitLoop, hq.1, hq.2, List.append_eq]
      rw [this]
      exact ih2 he c hc

/-- C7 witness: one stale-looking neutral frame followed by an error
frame, and by a completion frame. -/
theorem c7_witness :
    waitLoop ([[("note", JVal.jnull)]] ++ errResp ParameterError "bad" :: [])
      = .raised (.jint ParameterError) (.jstr "bad") ∧
    waitLoop ([[("note", JVal.jnull)]] ++ completeResp [("wavelength", JVal.jint 500)] :: [])
      = .completed [("wavelength", JVal.jint 500)] := by
  have h1 := (c7_send_and_wait_protocol false [] "wavelength" [] [] []).2.2
    [[("note", JVal.jnull)]] (errResp ParameterError "bad") []
    (by intro q hq; rw [List.mem_singleton] at hq; subst hq; exact ⟨rfl, rfl⟩)
  have h2 := (c7_send_and_wait_protocol false [] "wavelength" [] [] []).2.2
    [[("note", JVal.jnull)]] (completeResp [("wavelength", JVal.jint 500)]) []
    (by intro q hq; rw [List.mem_singleton] at hq; subst hq; exact ⟨rfl, rfl⟩)
  exact ⟨h1.1 (.jint ParameterError) (.jstr "bad") rfl rfl, h2.2 rfl (.jbool true) rfl⟩

end WinspecModel
